import Mathlib

/-!
Formal model of the `isaac-maths-demo` educational notebooks.

The central piece is the Maclaurin-series table printer
`print_maclaurin_table(*, term, x, max_terms=15)` from the Maclaurin
notebook, together with the term-generator functions `exp_term`,
`sin_term`, `cos_term`, `sinh_term`, `cosh_term`, and the two-line
derivative function `population_derivatives` from the Lotka-Volterra
notebook.

Embedding conventions:
* Python floats are modelled exactly: term values (which are quotients of
  rationals) live in `ℚ`, while reference values obtained from NumPy
  (`np.exp(x)` and friends) live in `ℝ`.
* The Python function prints a table and returns `None`, or prints an
  error message and returns early, or raises an exception part-way
  through.  We model the observable outcome as
  `Except SeriesError SeriesResult`: the `SeriesResult` collects exactly
  the per-row data the table displays (term values, cumulative sums,
  differences) plus the reference value, and each distinct early exit or
  exception is a distinct `SeriesError`.
* The NumPy module is modelled by the finite table `npAttr` of the
  attributes the notebooks touch: the callable functions `exp`, `sin`,
  `cos`, `sinh`, `cosh` (interpreted by the corresponding real
  functions) and the non-callable float attribute `pi`.
-/

/-- One step of Python `str.replace`: delete or replace every
non-overlapping occurrence of `pat`, scanning left to right.  The `Nat`
argument is fuel bounding the recursion by the length of the remaining
input (each step consumes at least one character). -/
def replaceAllAux (pat rep : List Char) : Nat → List Char → List Char
  | _, [] => []
  | 0, s => s
  | fuel + 1, c :: cs =>
    if pat.isPrefixOf (c :: cs) ∧ pat ≠ [] then
      rep ++ replaceAllAux pat rep fuel (List.drop (pat.length - 1) cs)
    else
      c :: replaceAllAux pat rep fuel cs

/-- Python `s.replace(pat, rep)` for nonempty `pat`: every non-overlapping
occurrence of `pat` in `s` is replaced by `rep`, scanning left to right. -/
def pyReplace (s pat rep : String) : String :=
  String.mk (replaceAllAux pat.data rep.data s.data.length s.data)

/-- A Python term-generator function as passed to
`print_maclaurin_table`: its `__name__` together with the map
`(r, x) ↦` r-th series term that its body computes. -/
structure TermFn where
  name : String
  f : Nat → ℚ → ℚ

/-- An attribute of the NumPy module: either a callable function of one
real argument, or a non-callable numeric constant (such as `np.pi`). -/
inductive NpAttr where
  | callable (f : ℚ → ℝ)
  | numConst (v : ℝ)

/-- Interpretation of `np.exp` on the (rational) evaluation point. -/
noncomputable def npExp : ℚ → ℝ := fun q => Real.exp q

/-- Interpretation of `np.sin` on the (rational) evaluation point. -/
noncomputable def npSin : ℚ → ℝ := fun q => Real.sin q

/-- Interpretation of `np.cos` on the (rational) evaluation point. -/
noncomputable def npCos : ℚ → ℝ := fun q => Real.cos q

/-- Interpretation of `np.sinh` on the (rational) evaluation point. -/
noncomputable def npSinh : ℚ → ℝ := fun q => Real.sinh q

/-- Interpretation of `np.cosh` on the (rational) evaluation point. -/
noncomputable def npCosh : ℚ → ℝ := fun q => Real.cosh q

/-- Model of the NumPy module attributes relevant to the notebooks:
`getattr(np, name)` for the names the code can look up.  `hasattr` is
`(npAttr name).isSome`.  `np.pi` exists but is a plain float, not a
callable function. -/
noncomputable def npAttr : String → Option NpAttr
  | "exp" => some (.callable npExp)
  | "sin" => some (.callable npSin)
  | "cos" => some (.callable npCos)
  | "sinh" => some (.callable npSinh)
  | "cosh" => some (.callable npCosh)
  | "pi" => some (.numConst Real.pi)
  | _ => none

/-- The distinct failure outcomes of a `print_maclaurin_table` call:
the two early returns that print a message (`invalidArgument` for
`max_terms >= 100`, `unknownFunction` when `hasattr(np, name)` is false)
and the Python exceptions the remaining code can raise
(`typeError` when the resolved attribute is applied but is not callable,
`valueError` from `np.zeros` on a negative size, `indexError` from
`result_to_r[-1]` on an empty array while printing). -/
inductive SeriesError where
  | invalidArgument
  | unknownFunction (name : String)
  | typeError
  | valueError
  | indexError
deriving DecidableEq

/-- Helper for `cumsum`: running sums of the list continuing from the
accumulator `acc`, left to right. -/
def cumsumFrom (acc : ℚ) : List ℚ → List ℚ
  | [] => []
  | t :: ts => (acc + t) :: cumsumFrom (acc + t) ts

/-- Model of `np.cumsum`: `cumsum [t0, t1, t2, ...] = [t0, t0+t1, ...]`,
accumulated strictly left to right. -/
def cumsum (l : List ℚ) : List ℚ := cumsumFrom 0 l

/-- The data a successful `print_maclaurin_table` call computes and
prints: the resolved function name, the reference value
`real_value = getattr(np, name)(x)`, the array `terms` of series terms,
its cumulative sum `result_to_r`, and the per-row
`differences = result_to_r - real_value`. -/
structure SeriesResult where
  function_name : String
  real_value : ℝ
  terms : List ℚ
  result_to_r : List ℚ
  differences : List ℝ

/-- Shallow embedding of `print_maclaurin_table(*, term, x, max_terms)`
from the Maclaurin notebook (the Python default is `max_terms=15`; here
the argument is always explicit).  Faithful to the source order:
1. `if max_terms >= 100:` print a message and return (no table);
2. `function_name = term.__name__.replace("_term", "")`;
3. `if not hasattr(np, function_name):` print a message and return;
4. `real_value = getattr(np, function_name)(x)` — raises `TypeError` if
   the attribute is not callable;
5. `terms = np.zeros(max_terms)` — raises `ValueError` if negative;
6. the term loop, `np.cumsum`, and the subtraction of `real_value`;
7. printing, whose `result_to_r[-1]` raises `IndexError` when
   `max_terms == 0` (so no rows are ever shown in that case). -/
noncomputable def print_maclaurin_table (term : TermFn) (x : ℚ) (max_terms : Int) :
    Except SeriesError SeriesResult :=
  if 100 ≤ max_terms then .error .invalidArgument
  else
    let function_name := pyReplace term.name "_term" ""
    match npAttr function_name with
    | none => .error (.unknownFunction function_name)
    | some (.numConst _) => .error .typeError
    | some (.callable real_function) =>
      let real_value := real_function x
      if max_terms < 0 then .error .valueError
      else
        let n := max_terms.toNat
        let terms := (List.range n).map (fun r => term.f r x)
        let result_to_r := cumsum terms
        let differences := result_to_r.map (fun c : ℚ => (c : ℝ) - real_value)
        if n = 0 then .error .indexError
        else .ok ⟨function_name, real_value, terms, result_to_r, differences⟩

/-- Number of rows the call produced (zero on any error outcome). -/
def numRows : Except SeriesError SeriesResult → Nat
  | .ok r => r.terms.length
  | .error _ => 0

/-- Cumulative sum at row `i` of a call outcome (0 on error or out of
range). -/
def cumAt (e : Except SeriesError SeriesResult) (i : Nat) : ℚ :=
  match e with
  | .ok r => r.result_to_r.getD i 0
  | .error _ => 0

/-- Error column at row `i` of a call outcome (0 on error or out of
range). -/
noncomputable def diffAt (e : Except SeriesError SeriesResult) (i : Nat) : ℝ :=
  match e with
  | .ok r => r.differences.getD i 0
  | .error _ => 0

/-- The notebook's `exp_term(r, x)`: `np.power(x, r) / np.math.factorial(r)`. -/
def exp_term (r : Nat) (x : ℚ) : ℚ := x ^ r / (Nat.factorial r : ℚ)

/-- The notebook's `sin_term(r, x)`. -/
def sin_term (r : Nat) (x : ℚ) : ℚ :=
  (-1 : ℚ) ^ r * x ^ (2 * r + 1) / (Nat.factorial (2 * r + 1) : ℚ)

/-- The notebook's `cos_term(r, x)`. -/
def cos_term (r : Nat) (x : ℚ) : ℚ :=
  (-1 : ℚ) ^ r * x ^ (2 * r) / (Nat.factorial (2 * r) : ℚ)

/-- The notebook's `cosh_term(r, x)`. -/
def cosh_term (r : Nat) (x : ℚ) : ℚ :=
  x ^ (2 * r) / (Nat.factorial (2 * r) : ℚ)

/-- The notebook's `sinh_term(r, x)`. -/
def sinh_term (r : Nat) (x : ℚ) : ℚ :=
  x ^ (2 * r + 1) / (Nat.factorial (2 * r + 1) : ℚ)

/-- `exp_term` as a Python function object: `__name__ == "exp_term"`. -/
def exp_termFn : TermFn := ⟨"exp_term", exp_term⟩

/-- A hypothetical user-defined term generator named `pi_term` (body: the
Leibniz series terms for π).  Its derived lookup key is `"pi"`, which is
an existing but non-callable NumPy attribute. -/
def pi_term (r : Nat) (_x : ℚ) : ℚ := 4 * (-1 : ℚ) ^ r / (2 * (r : ℚ) + 1)

/-- `pi_term` as a Python function object: `__name__ == "pi_term"`. -/
def pi_termFn : TermFn := ⟨"pi_term", pi_term⟩

/-- A term generator whose derived name `"foo"` is not a NumPy attribute. -/
def foo_termFn : TermFn := ⟨"foo_term", fun _ _ => 0⟩

/-- Shallow embedding of `population_derivatives(populations, t, beta)`
from the Lotka-Volterra notebook: the population vector `[y, z]` is a
pair, and the function returns `[(z - beta) * y, (1 - y) * z]`, ignoring
`t` exactly as the source does. -/
def population_derivatives (populations : ℚ × ℚ) (t : ℚ) (beta : ℚ) : ℚ × ℚ :=
  let y := populations.1
  let z := populations.2
  let y_prime := (z - beta) * y
  let z_prime := (1 - y) * z
  (y_prime, z_prime)

/-- The `SeriesResult` record produced by the notebook's own demo call
`print_maclaurin_table(x=1, term=exp_term)` truncated to `max_terms=6`
(the run the spec's concrete scenario describes). -/
noncomputable def exp6res : SeriesResult :=
  ⟨pyReplace exp_termFn.name "_term" "", npExp 1,
   (List.range (6 : Int).toNat).map (fun r => exp_termFn.f r 1),
   cumsum ((List.range (6 : Int).toNat).map (fun r => exp_termFn.f r 1)),
   (cumsum ((List.range (6 : Int).toNat).map (fun r => exp_termFn.f r 1))).map
     (fun c : ℚ => (c : ℝ) - npExp 1)⟩

/-! ### Structural lemmas about the embedding -/

theorem cumsumFrom_length (acc : ℚ) (l : List ℚ) : (cumsumFrom acc l).length = l.length := by
  induction l generalizing acc with
  | nil => rfl
  | cons t ts ih => simp [cumsumFrom, ih]

theorem cumsumFrom_get (l : List ℚ) (acc : ℚ) (i : Nat) (hi : i < (cumsumFrom acc l).length) :
    (cumsumFrom acc l).get ⟨i, hi⟩ = acc + ((l.take (i + 1)).sum) := by
  induction l generalizing acc i with
  | nil => simp [cumsumFrom] at hi
  | cons t ts ih =>
    cases i with
    | zero => simp [cumsumFrom]
    | succ j =>
      simp only [cumsumFrom, List.get_cons_succ]
      rw [ih]
      simp [add_assoc]

theorem cumsum_length (l : List ℚ) : (cumsum l).length = l.length := cumsumFrom_length 0 l

theorem cumsum_get (l : List ℚ) (i : Nat) (hi : i < (cumsum l).length) :
    (cumsum l).get ⟨i, hi⟩ = (l.take (i + 1)).sum := by
  have h := cumsumFrom_get l 0 i hi
  rw [zero_add] at h
  exact h

theorem print_invalid (t : TermFn) (x : ℚ) (m : Int) (hm : 100 ≤ m) :
    print_maclaurin_table t x m = .error .invalidArgument := by
  unfold print_maclaurin_table
  rw [if_pos hm]

theorem print_unknown (t : TermFn) (x : ℚ) (m : Int) (hm : m < 100)
    (h : npAttr (pyReplace t.name "_term" "") = none) :
    print_maclaurin_table t x m = .error (.unknownFunction (pyReplace t.name "_term" "")) := by
  unfold print_maclaurin_table
  rw [if_neg (by omega)]
  simp only [h]

theorem print_type (t : TermFn) (x : ℚ) (m : Int) (v : ℝ) (hm : m < 100)
    (h : npAttr (pyReplace t.name "_term" "") = some (.numConst v)) :
    print_maclaurin_table t x m = .error .typeError := by
  unfold print_maclaurin_table
  rw [if_neg (by omega)]
  simp only [h]

theorem print_neg (t : TermFn) (x : ℚ) (m : Int) (f : ℚ → ℝ) (hm : m < 0)
    (h : npAttr (pyReplace t.name "_term" "") = some (.callable f)) :
    print_maclaurin_table t x m = .error .valueError := by
  unfold print_maclaurin_table
  rw [if_neg (by omega)]
  simp only [h]
  rw [if_pos hm]

theorem print_zero (t : TermFn) (x : ℚ) (f : ℚ → ℝ)
    (h : npAttr (pyReplace t.name "_term" "") = some (.callable f)) :
    print_maclaurin_table t x 0 = .error .indexError := by
  unfold print_maclaurin_table
  rw [if_neg (by omega)]
  simp only [h]
  rw [if_neg (by omega), if_pos (show (0 : Int).toNat = 0 by rfl)]

theorem print_ok_of (t : TermFn) (x : ℚ) (m : Int) (f : ℚ → ℝ)
    (hf : npAttr (pyReplace t.name "_term" "") = some (.callable f))
    (h0 : 0 < m) (h100 : m < 100) :
    print_maclaurin_table t x m =
      .ok ⟨pyReplace t.name "_term" "", f x,
           (List.range m.toNat).map (fun r => t.f r x),
           cumsum ((List.range m.toNat).map (fun r => t.f r x)),
           (cumsum ((List.range m.toNat).map (fun r => t.f r x))).map
             (fun c : ℚ => (c : ℝ) - f x)⟩ := by
  unfold print_maclaurin_table
  rw [if_neg (by omega)]
  simp only [hf]
  rw [if_neg (by omega), if_neg (by omega)]

theorem print_ok_inv (t : TermFn) (x : ℚ) (m : Int) (res : SeriesResult)
    (h : print_maclaurin_table t x m = .ok res) :
    ∃ f, npAttr (pyReplace t.name "_term" "") = some (.callable f) ∧
      0 < m ∧ m < 100 ∧
      res = ⟨pyReplace t.name "_term" "", f x,
             (List.range m.toNat).map (fun r => t.f r x),
             cumsum ((List.range m.toNat).map (fun r => t.f r x)),
             (cumsum ((List.range m.toNat).map (fun r => t.f r x))).map
               (fun c : ℚ => (c : ℝ) - f x)⟩ := by
  by_cases hm : 100 ≤ m
  · rw [print_invalid t x m hm] at h
    exact absurd h (by simp)
  push_neg at hm
  rcases hnp : npAttr (pyReplace t.name "_term" "") with _ | attr
  · rw [print_unknown t x m hm hnp] at h
    exact absurd h (by simp)
  rcases attr with f | v
  · by_cases hneg : m < 0
    · rw [print_neg t x m f hneg hnp] at h
      exact absurd h (by simp)
    by_cases h0 : m = 0
    · subst h0
      rw [print_zero t x f hnp] at h
      exact absurd h (by simp)
    have hpos : 0 < m := by omega
    refine ⟨f, rfl, hpos, hm, ?_⟩
    rw [print_ok_of t x m f hnp hpos hm] at h
    injection h with h
    exact h.symm
  · rw [print_type t x m v hm hnp] at h
    exact absurd h (by simp)

theorem exp6_eq : print_maclaurin_table exp_termFn 1 6 = .ok exp6res :=
  print_ok_of exp_termFn 1 6 npExp rfl (by norm_num) (by norm_num)

theorem exp6_cum5 : cumAt (print_maclaurin_table exp_termFn 1 6) 5 = 163 / 60 := by
  rw [exp6_eq]
  show exp6res.result_to_r.getD 5 0 = 163 / 60
  norm_num [exp6res, List.range_succ, cumsum, cumsumFrom, exp_termFn, exp_term, Nat.factorial]

theorem exp6_diff5 :
    diffAt (print_maclaurin_table exp_termFn 1 6) 5 = ((163 / 60 : ℚ) : ℝ) - Real.exp 1 := by
  rw [exp6_eq]
  have h : exp6res.result_to_r = [1, 2, 5/2, 8/3, 65/24, 163/60] := by
    norm_num [exp6res, List.range_succ, cumsum, cumsumFrom, exp_termFn, exp_term, Nat.factorial]
  show (exp6res.result_to_r.map (fun c : ℚ => (c : ℝ) - npExp 1)).getD 5 0
      = ((163 / 60 : ℚ) : ℝ) - Real.exp 1
  rw [h]
  norm_num [npExp]

/-! ### The claims -/

/-- Claim C1 (amended): the hard ceiling of the series evaluator is 100,
not 99: a call with `max_terms >= 100` fails with the `InvalidArgument`
condition and produces no rows, a call with `max_terms = 99` (and a
resolvable term-function name) succeeds, and every successful evaluation
runs its term loop at most 99 times. -/
theorem c1_maxterms_boundary (t : TermFn) (x : ℚ) (m : Int) :
    (100 ≤ m → print_maclaurin_table t x m = .error .invalidArgument) ∧
    (print_maclaurin_table exp_termFn 1 99).isOk = true ∧
    (∀ res, print_maclaurin_table t x m = .ok res → res.terms.length ≤ 99) := by
  refine ⟨fun hm => print_invalid t x m hm, rfl, fun res h => ?_⟩
  obtain ⟨f, hnp, hpos, hm, hres⟩ := print_ok_inv t x m res h
  subst hres
  simp only [List.length_map, List.length_range]
  omega

/-- Claim C1, witness: `max_terms = 100` is rejected with
`InvalidArgument`. -/
theorem c1_maxterms_boundary_witness :
    print_maclaurin_table exp_termFn 1 100 = .error .invalidArgument :=
  (c1_maxterms_boundary exp_termFn 1 100).1 (by norm_num)

/-- Claim C1, counterexample to the claim as stated: a call with
`max_terms = 99` does not fail — it succeeds and produces 99 rows, so
the loop of a successful evaluation can run 99 (not at most 98) times. -/
theorem c1_counterexample_99_succeeds :
    (print_maclaurin_table exp_termFn 1 99).isOk = true ∧
    numRows (print_maclaurin_table exp_termFn 1 99) = 99 :=
  ⟨rfl, by decide⟩

/-- Claim C2: for every valid `max_terms` N (positive and below the
ceiling) and every term function whose derived name resolves to a
callable entry of the numeric-function provider, the evaluation returns
exactly N rows indexed 0..N-1, with the i-th term value equal to
`term_function(i, x)`, and no early termination. -/
theorem c2_exact_rows (t : TermFn) (x : ℚ) (m : Int) (f : ℚ → ℝ)
    (hf : npAttr (pyReplace t.name "_term" "") = some (.callable f))
    (h0 : 0 < m) (h100 : m < 100) :
    ∃ res, print_maclaurin_table t x m = .ok res ∧
      res.terms.length = m.toNat ∧
      res.result_to_r.length = m.toNat ∧
      res.differences.length = m.toNat ∧
      ∀ i (hi : i < res.terms.length), res.terms.get ⟨i, hi⟩ = t.f i x := by
  refine ⟨_, print_ok_of t x m f hf h0 h100, ?_, ?_, ?_, ?_⟩
  · simp
  · simp [cumsum_length]
  · simp [cumsum_length]
  · intro i hi
    simp

/-- Claim C2, witness: the exponential generator at `x = 1` with
`max_terms = 6` produces exactly 6 rows whose term values are
`exp_term(i, 1)`. -/
theorem c2_exact_rows_witness :
    ∃ res, print_maclaurin_table exp_termFn 1 6 = .ok res ∧
      res.terms.length = (6 : Int).toNat ∧
      res.result_to_r.length = (6 : Int).toNat ∧
      res.differences.length = (6 : Int).toNat ∧
      ∀ i (hi : i < res.terms.length), res.terms.get ⟨i, hi⟩ = exp_termFn.f i 1 :=
  c2_exact_rows exp_termFn 1 6 npExp rfl (by norm_num) (by norm_num)

/-- Claim C3: in every successful evaluation the cumulative-sum column
is the prefix sum of the term column, accumulated left to right:
`cumulative[i] = sum(term[0..i])`, with `cumulative[0] = term[0]` and
`cumulative[i+1] = cumulative[i] + term[i+1]`. -/
theorem c3_prefix_sum (t : TermFn) (x : ℚ) (m : Int) (res : SeriesResult)
    (h : print_maclaurin_table t x m = .ok res) :
    res.result_to_r.length = res.terms.length ∧
    (∀ i (hi : i < res.result_to_r.length),
      res.result_to_r.get ⟨i, hi⟩ = (res.terms.take (i + 1)).sum) ∧
    (∀ (h0 : 0 < res.result_to_r.length) (h0' : 0 < res.terms.length),
      res.result_to_r.get ⟨0, h0⟩ = res.terms.get ⟨0, h0'⟩) ∧
    (∀ i (hi1 : i + 1 < res.result_to_r.length) (hi0 : i < res.result_to_r.length)
       (hit : i + 1 < res.terms.length),
      res.result_to_r.get ⟨i + 1, hi1⟩ =
        res.result_to_r.get ⟨i, hi0⟩ + res.terms.get ⟨i + 1, hit⟩) := by
  obtain ⟨f, hnp, hpos, hm, hres⟩ := print_ok_inv t x m res h
  subst hres
  dsimp only
  refine ⟨cumsum_length _, fun i hi => cumsum_get _ i hi, fun h0 h0' => ?_,
    fun i hi1 hi0 hit => ?_⟩
  · rw [cumsum_get]
    rw [List.sum_take_succ _ 0 h0']
    simp
  · rw [cumsum_get, cumsum_get]
    rw [List.sum_take_succ _ (i + 1) hit]
    simp [List.get_eq_getElem]

/-- Claim C3, witness: the prefix-sum law holds for the concrete
6-term exponential run. -/
theorem c3_prefix_sum_witness :
    exp6res.result_to_r.length = exp6res.terms.length ∧
    (∀ i (hi : i < exp6res.result_to_r.length),
      exp6res.result_to_r.get ⟨i, hi⟩ = (exp6res.terms.take (i + 1)).sum) ∧
    (∀ (h0 : 0 < exp6res.result_to_r.length) (h0' : 0 < exp6res.terms.length),
      exp6res.result_to_r.get ⟨0, h0⟩ = exp6res.terms.get ⟨0, h0'⟩) ∧
    (∀ i (hi1 : i + 1 < exp6res.result_to_r.length) (hi0 : i < exp6res.result_to_r.length)
       (hit : i + 1 < exp6res.terms.length),
      exp6res.result_to_r.get ⟨i + 1, hi1⟩ =
        exp6res.result_to_r.get ⟨i, hi0⟩ + exp6res.terms.get ⟨i + 1, hit⟩) :=
  c3_prefix_sum exp_termFn 1 6 exp6res exp6_eq

/-- Claim C4: in every successful evaluation the reference value is the
provider's function for the resolved name applied to `x`, and every row's
error value is the cumulative sum of that row minus this single reference
value, which is the same across all rows of the call. -/
theorem c4_reference_value (t : TermFn) (x : ℚ) (m : Int) (res : SeriesResult) (f : ℚ → ℝ)
    (h : print_maclaurin_table t x m = .ok res)
    (hf : npAttr (pyReplace t.name "_term" "") = some (.callable f)) :
    res.real_value = f x ∧
    res.differences.length = res.result_to_r.length ∧
    ∀ i (hi : i < res.differences.length) (hi' : i < res.result_to_r.length),
      res.differences.get ⟨i, hi⟩ = (res.result_to_r.get ⟨i, hi'⟩ : ℝ) - res.real_value := by
  obtain ⟨f', hnp, hpos, hm, hres⟩ := print_ok_inv t x m res h
  rw [hf] at hnp
  have hff : f = f' := by
    have hc := Option.some.inj hnp
    injection hc
  subst hff
  subst hres
  dsimp only
  refine ⟨rfl, by simp, fun i hi hi' => ?_⟩
  simp

/-- Claim C4, witness: the error column of the concrete 6-term
exponential run subtracts the single reference value `np.exp(1)` from
each cumulative sum. -/
theorem c4_reference_value_witness :
    exp6res.real_value = npExp 1 ∧
    exp6res.differences.length = exp6res.result_to_r.length ∧
    ∀ i (hi : i < exp6res.differences.length) (hi' : i < exp6res.result_to_r.length),
      exp6res.differences.get ⟨i, hi⟩ =
        (exp6res.result_to_r.get ⟨i, hi'⟩ : ℝ) - exp6res.real_value :=
  c4_reference_value exp_termFn 1 6 exp6res npExp exp6_eq rfl

/-- Claim C5 (amended): the evaluator performs no positivity validation
on `max_terms`: a zero or negative value is not rejected with the
`InvalidArgument` condition; the call instead proceeds past the
`max_terms` check and fails with an `IndexError` (from `result_to_r[-1]`
during printing) when `max_terms = 0`, and with a `ValueError` (from
`np.zeros`) when `max_terms` is negative — after the reference value has
already been computed; no rows are produced in either case. -/
theorem c5_nonpositive_not_validated (t : TermFn) (x : ℚ) (m : Int) (f : ℚ → ℝ)
    (hf : npAttr (pyReplace t.name "_term" "") = some (.callable f)) (hm : m ≤ 0) :
    print_maclaurin_table t x m ≠ .error .invalidArgument ∧
    (m = 0 → print_maclaurin_table t x m = .error .indexError) ∧
    (m < 0 → print_maclaurin_table t x m = .error .valueError) := by
  rcases eq_or_lt_of_le hm with heq | hlt
  · subst heq
    have hv := print_zero t x f hf
    refine ⟨?_, fun _ => hv, fun hcon => absurd hcon (by omega)⟩
    rw [hv]
    simp only [ne_eq, Except.error.injEq]
    decide
  · have hv := print_neg t x m f hlt hf
    refine ⟨?_, fun hcon => absurd hcon (by omega), fun _ => hv⟩
    rw [hv]
    simp only [ne_eq, Except.error.injEq]
    decide

/-- Claim C5, witness: `max_terms = 0` with the exponential generator is
not an `InvalidArgument` failure but an `IndexError`. -/
theorem c5_nonpositive_not_validated_witness :
    print_maclaurin_table exp_termFn 1 0 ≠ .error .invalidArgument ∧
    ((0 : Int) = 0 → print_maclaurin_table exp_termFn 1 0 = .error .indexError) ∧
    ((0 : Int) < 0 → print_maclaurin_table exp_termFn 1 0 = .error .valueError) :=
  c5_nonpositive_not_validated exp_termFn 1 0 npExp rfl (by norm_num)

/-- Claim C5, counterexample to the claim as stated: with
`max_terms = 0` the call fails with `IndexError` and with
`max_terms = -3` with `ValueError`; neither is the `InvalidArgument`
condition the claim requires. -/
theorem c5_counterexample_no_positivity_check :
    print_maclaurin_table exp_termFn 1 0 = .error .indexError ∧
    print_maclaurin_table exp_termFn 1 (-3) = .error .valueError ∧
    decide (SeriesError.indexError = SeriesError.invalidArgument) = false ∧
    decide (SeriesError.valueError = SeriesError.invalidArgument) = false :=
  ⟨rfl, rfl, rfl, rfl⟩

/-- Claim C6: when the derived name of the term function has no entry in
the numeric-function provider, the evaluation fails with the
`UnknownFunction` condition carrying that name and produces no rows; the
check runs after the `max_terms` ceiling check (a too-large `max_terms`
wins even for an unknown name) and before any computation. -/
theorem c6_unknown_function_aborts (t : TermFn) (x : ℚ) (m : Int)
    (h : npAttr (pyReplace t.name "_term" "") = none) :
    (m < 100 → print_maclaurin_table t x m =
      .error (.unknownFunction (pyReplace t.name "_term" ""))) ∧
    (m < 100 → numRows (print_maclaurin_table t x m) = 0) ∧
    (100 ≤ m → print_maclaurin_table t x m = .error .invalidArgument) := by
  refine ⟨fun hm => print_unknown t x m hm h, fun hm => ?_, fun hm => print_invalid t x m hm⟩
  rw [print_unknown t x m hm h]
  rfl

/-- Claim C6, witness: a generator named `foo_term` (derived name `foo`,
not a NumPy attribute) fails with `UnknownFunction` and zero rows. -/
theorem c6_unknown_function_witness :
    print_maclaurin_table foo_termFn 1 5 =
      .error (.unknownFunction (pyReplace foo_termFn.name "_term" "")) ∧
    numRows (print_maclaurin_table foo_termFn 1 5) = 0 :=
  ⟨(c6_unknown_function_aborts foo_termFn 1 5 rfl).1 (by norm_num),
   (c6_unknown_function_aborts foo_termFn 1 5 rfl).2.1 (by norm_num)⟩

/-- Claim C7: the evaluation is deterministic and stateless — it is a
pure function of `(term, x, max_terms)`, so two calls with identical
inputs produce identical outcomes (same terms, cumulative sums, errors
and reference value), and no call can change state observed by a later
call. -/
theorem c7_deterministic_pure (t t' : TermFn) (x x' : ℚ) (m m' : Int)
    (ht : t = t') (hx : x = x') (hm : m = m') :
    print_maclaurin_table t x m = print_maclaurin_table t' x' m' := by
  subst ht
  subst hx
  subst hm
  rfl

/-- Claim C7, witness: two identical exponential calls agree. -/
theorem c7_deterministic_pure_witness :
    print_maclaurin_table exp_termFn 1 6 = print_maclaurin_table exp_termFn 1 6 :=
  c7_deterministic_pure exp_termFn exp_termFn 1 1 6 6 rfl rfl rfl

/-- Claim C8 (amended): the exponential generator at `x = 1` with
`max_terms = 6` yields `cumulative[5] = 163/60 ≈ 2.716666666667`
(the sum 1 + 1 + 1/2 + 1/6 + 1/24 + 1/120) and
`error[5] = cumulative[5] - e`, which lies strictly between
-0.001616 and -0.001615 (approximately -0.001615, not -0.001529). -/
theorem c8_exp_at_one_six_terms :
    cumAt (print_maclaurin_table exp_termFn 1 6) 5 = 163 / 60 ∧
    |((163 / 60 : ℚ) : ℝ) - 2.716666666667| < 0.000000000001 ∧
    diffAt (print_maclaurin_table exp_termFn 1 6) 5 = ((163 / 60 : ℚ) : ℝ) - Real.exp 1 ∧
    -0.001616 < diffAt (print_maclaurin_table exp_termFn 1 6) 5 ∧
    diffAt (print_maclaurin_table exp_termFn 1 6) 5 < -0.001615 := by
  refine ⟨exp6_cum5, ?_, exp6_diff5, ?_, ?_⟩
  · rw [abs_lt]
    constructor <;> norm_num
  · rw [exp6_diff5]
    push_cast
    linarith [Real.exp_one_lt_d9]
  · rw [exp6_diff5]
    push_cast
    linarith [Real.exp_one_gt_d9]

/-- Claim C8, counterexample to the claimed numeric value: `error[5]` is
more than 0.00008 below -0.001529, so it is not approximately -0.001529
(the claim's own 6-decimal precision would require agreement within
0.0000005). -/
theorem c8_counterexample_error_value :
    diffAt (print_maclaurin_table exp_termFn 1 6) 5 + 0.001529 < -0.00008 := by
  rw [exp6_diff5]
  push_cast
  linarith [Real.exp_one_gt_d9]

/-- Claim C9: the provider-lookup key deletes every occurrence of
`"_term"` from the term function's `__name__`, the only validation is an
attribute-existence check, and a generator named `pi_term` therefore
passes validation (`np.pi` exists) but the evaluation then fails with a
`TypeError` exception when the non-callable attribute is applied to `x`,
not with the `UnknownFunction` condition. -/
theorem c9_lookup_key_not_callable :
    pyReplace pi_termFn.name "_term" "" = "pi" ∧
    pyReplace "exp_term_term" "_term" "" = "exp" ∧
    pyReplace "a_termb_term" "_term" "" = "ab" ∧
    (npAttr "pi").isSome = true ∧
    print_maclaurin_table pi_termFn 1 5 = .error .typeError :=
  ⟨rfl, rfl, rfl, rfl, rfl⟩

/-- Claim C10: `population_derivatives([y, z], t, beta)` returns exactly
`[(z - beta) * y, (1 - y) * z]`; the result is independent of the time
argument `t`, the first component vanishes when `y = 0` and the second
when `z = 0`. -/
theorem c10_population_derivatives_formula (y z t t' beta : ℚ) :
    population_derivatives (y, z) t beta = ((z - beta) * y, (1 - y) * z) ∧
    population_derivatives (y, z) t beta = population_derivatives (y, z) t' beta ∧
    (y = 0 → (population_derivatives (y, z) t beta).1 = 0) ∧
    (z = 0 → (population_derivatives (y, z) t beta).2 = 0) := by
  refine ⟨rfl, rfl, fun hy => ?_, fun hz => ?_⟩ <;> simp [population_derivatives, *]

/-- Claim C10, witness: concrete evaluation with `y = 0` at two distinct
times. -/
theorem c10_population_derivatives_witness :
    population_derivatives (0, 3) 7 2 = ((3 - 2) * 0, (1 - 0) * 3) ∧
    (population_derivatives (0, 3) 7 2).1 = 0 :=
  ⟨(c10_population_derivatives_formula 0 3 7 8 2).1,
   (c10_population_derivatives_formula 0 3 7 8 2).2.2.1 rfl⟩
